import Mathlib

/-!
Verification of the doccer documentation pipeline (`src/doccer/__init__.py`).

The Python code is shallowly embedded: TOML parsing and the filesystem,
subprocess and template engine are external collaborators, so parsed manifest
content, file existence, builder results and rendered text are inputs to the
embedded functions; the functions themselves mirror the Python control flow,
including dictionary `KeyError`s (modelled with `Except`) and the effects the
code performs (modelled as event traces and an association-list filesystem).
-/

namespace Doccer

/-! ### Path model

The code only manipulates relative POSIX paths through `pathlib`
(`Path(p).parent`, `Path(a) / b`, `str(...)`).  `pathlib` normalises a path to
its non-empty components, dropping `.` components; the parent of a
single-component relative path is `.`, and joining renders components
separated by `/` (an empty component list renders as `.`). -/

/-- Split a character list on a separator character. -/
def splitOnChar (sep : Char) : List Char → List (List Char)
  | [] => [[]]
  | c :: cs =>
    let rest := splitOnChar sep cs
    if c = sep then [] :: rest
    else
      match rest with
      | [] => [[c]]
      | r :: rs => (c :: r) :: rs

/-- The normalised components of a relative POSIX path, as `pathlib` keeps
them: split on `/`, dropping empty components and `.` components. -/
def pathParts (p : String) : List String :=
  ((splitOnChar '/' p.data).map (fun cs => String.mk cs)).filter
    (fun s => !(s == "") && !(s == "."))

/-- Render a component list back to a path string, as `str()` of a
`pathlib.PurePosixPath` does for relative paths. -/
def renderParts : List String → String
  | [] => "."
  | ps => String.intercalate "/" ps

/-- `str(Path(p).parent)`: drop the last component. -/
def pathParent (p : String) : String :=
  renderParts (pathParts p).dropLast

/-- `str(Path(a) / b)` for relative `a`, `b`. -/
def pathJoin (a b : String) : String :=
  renderParts (pathParts a ++ pathParts b)

/-! ### String helpers: Python `needle in haystack` and `s.replace(old, new)` -/

/-- Membership of `needle` as a contiguous sublist of `hay`
(Python `needle in haystack` on strings/bytes). -/
def listContains (needle : List Char) : List Char → Bool
  | [] => needle.isEmpty
  | c :: cs => needle.isPrefixOf (c :: cs) || listContains needle cs

/-- Python `needle in haystack` for strings. -/
def strContains (haystack needle : String) : Bool :=
  listContains needle.data haystack.data

/-- Fuel-driven replace-all on character lists (the fuel is the length of the
scanned list, which bounds the number of steps). -/
def replaceListAux (pat repl : List Char) : Nat → List Char → List Char
  | 0, s => s
  | _ + 1, [] => []
  | n + 1, c :: cs =>
    if pat.isPrefixOf (c :: cs) && !pat.isEmpty then
      repl ++ replaceListAux pat repl n ((c :: cs).drop pat.length)
    else
      c :: replaceListAux pat repl n cs

/-- Python `s.replace(pat, repl)`: replace every occurrence, left to right. -/
def pyReplace (s pat repl : String) : String :=
  String.mk (replaceListAux pat.data repl.data s.data.length s.data)

/-! ### Data model (`src/doccer/types.py`, `src/doccer/__init__.py`)

Python dictionaries built field by field are modelled as structures with
`Option` fields where `none` means "key absent"; reading an absent key is a
`KeyError`.  A parsed `pyproject.toml` is restricted to the keys the code
reads: `project` (with `name` and `authors`), and `tool.doccer` (with
`doc_src`, `doc_dest`, `py_modules`). -/

/-- `EmailContact` (`types.py`): a `{name, email}` contact record. -/
structure EmailContact where
  name : String
  email : String
deriving DecidableEq, Repr

/-- The `[project]` table of a parsed manifest; each key may be absent. -/
structure ProjectTable where
  name : Option String
  authors : Option (List EmailContact)
deriving DecidableEq, Repr

/-- The `[tool.doccer]` section of a parsed manifest; each key may be absent. -/
structure DoccerSection where
  doc_src : Option String
  doc_dest : Option String
  py_modules : Option (List String)
deriving DecidableEq, Repr

/-- A parsed manifest, restricted to the keys `_load_config` reads:
`tool_doccer` is `toml.get("tool", {}).get("doccer")` and `project` is the
top-level `project` table (absent means `toml["project"]` raises). -/
structure Toml where
  project : Option ProjectTable
  tool_doccer : Option DoccerSection
deriving DecidableEq, Repr

/-- The `derived_config` dictionary as actually built by `_load_config`.  The
declared type `DerivedConfigData` lists `author`, `build_dir`, `deploy_dir`
and `project_name` as required; `none` records that a key was never assigned. -/
structure DerivedConfigData where
  author : Option EmailContact := none
  build_dir : Option String := none
  deploy_dir : Option String := none
  project_name : Option String := none
deriving DecidableEq, Repr

/-- `DocConfig`: the configuration record returned by `_load_config`. -/
structure DocConfig where
  pyproject_path : String
  pyproject_data : Toml
  doc_src : String
  doc_dest : String
  derived : DerivedConfigData
  py_modules : List String
deriving DecidableEq, Repr

/-- The exceptions the pipeline can raise: a dictionary `KeyError` on a named
key, `subprocess.CalledProcessError` carrying the builder's exit status, or
`FileNotFoundError` from copying to a destination whose parent directory
does not exist. -/
inductive RunError where
  | keyError (key : String)
  | calledProcessError (returncode : Nat)
  | fileNotFoundError (path : String)
deriving DecidableEq, Repr

instance {ε α : Type} [DecidableEq ε] [DecidableEq α] : DecidableEq (Except ε α) :=
  fun a b =>
    match a, b with
    | .error e, .error f => decidable_of_iff (e = f) (by simp)
    | .ok x, .ok y => decidable_of_iff (x = y) (by simp)
    | .error _, .ok _ => isFalse (fun c => Except.noConfusion c)
    | .ok _, .error _ => isFalse (fun c => Except.noConfusion c)

/-- `_load_config(pyproject)`: resolve one parsed manifest.  Returns `ok none`
when the `[tool.doccer]` section is absent; otherwise builds the `DocConfig`.
`toml["project"]` is read unconditionally once the section is present, and the
default argument `[toml["project"]["name"]]` of the `py_modules` lookup is
evaluated eagerly (Python evaluates `d.get(k, default)`'s default before the
lookup), so a missing `name` raises even when `py_modules` is explicit. -/
def _load_config (pyproject : String) (toml : Toml) :
    Except RunError (Option DocConfig) :=
  match toml.tool_doccer with
  | none => .ok none
  | some magdocs_config =>
    let src_dir := magdocs_config.doc_src.getD "docs/src"
    match toml.project with
    | none => .error (.keyError "project")
    | some project =>
      -- truthiness of `toml["project"].get("authors")`: present and non-empty
      let author : EmailContact :=
        match project.authors with
        | some (a :: _) => a
        | _ => { name := "unknown", email := "unknown" }
      let derived : DerivedConfigData :=
        { author := some author
          build_dir := some (pathJoin (pathParent src_dir) "build")
          deploy_dir := some "." }
      match project.name with
      | none => .error (.keyError "name")
      | some projectName =>
        .ok (some
          { pyproject_path := pyproject
            pyproject_data := toml
            doc_src := src_dir
            doc_dest := magdocs_config.doc_dest.getD "."
            derived := derived
            py_modules := magdocs_config.py_modules.getD [projectName] })

/-- `_load_configs`: resolve each discovered manifest in order, keeping the
non-`None` results; any exception raised while loading one manifest
propagates and aborts the whole discovery. -/
def _load_configs : List (String × Toml) → Except RunError (List DocConfig)
  | [] => .ok []
  | (pyproject, toml) :: rest =>
    match _load_config pyproject toml with
    | .error e => .error e
    | .ok none => _load_configs rest
    | .ok (some config) => (_load_configs rest).map (fun cs => config :: cs)

/-! ### External world and effect trace

The builder subprocess, the template engine and the filesystem are external:
a `World` records what they would do, and the pipeline's side effects are
collected as an `Event` trace in program order. -/

/-- What one `sphinx-build` subprocess run produces, as observed by the code:
its exit status, its captured standard output, and the relative paths of the
`.rst` files it leaves under the build directory (found later by `rglob`). -/
structure SphinxRun where
  returncode : Nat
  stdout : String
  rstOutputs : List String
deriving DecidableEq, Repr

/-- The external collaborators: whether a documentation source directory
exists, what the builder does for a given configuration, and the fresh
temporary-directory name `tempfile.TemporaryDirectory()` yields on the i-th
iteration. -/
structure World where
  docSrcExists : String → Bool
  sphinx : DocConfig → SphinxRun
  tmpName : Nat → String

/-- An observable side effect of the pipeline, in program order. -/
inductive Event where
  | makedirs (dir : String)
  | writeFile (path : String)
  | runSphinx (doc_src : String) (build_dir : String)
  | copyFile (src : String) (dest : String)
deriving DecidableEq, Repr

/-- The destination filename of a rendered template:
`template_name.replace(".jinja2", "")`. -/
def templateDestName (template_name : String) : String :=
  pyReplace template_name ".jinja2" ""

/-- Effects of `_render_template(template_name, dest_dir, **config)`:
`os.makedirs(dest_dir, exist_ok=True)` then a write of the rendered text to
`dest_dir / template_name.replace(".jinja2", "")`. -/
def _render_template (template_name : String) (dest_dir : String) : List Event :=
  [.makedirs dest_dir, .writeFile (pathJoin dest_dir (templateDestName template_name))]

/-- Effects of `_generate_sample_docs_source(config)`: render the root
document and the example subpage (in the nested `docs` subdirectory), then
the Sphinx config and makefile, all under `config["doc_src"]`. -/
def _generate_sample_docs_source (config : DocConfig) : List Event :=
  _render_template "README.rst.jinja2" config.doc_src ++
  _render_template "subpage.rst.jinja2" (pathJoin config.doc_src "docs") ++
  _render_template "conf.py.jinja2" config.doc_src ++
  _render_template "Makefile.jinja2" config.doc_src

/-- `_build_with_sphinx(config)`: reads `config["doc_src"]` and
`config["derived"]["build_dir"]` to form the command (a `KeyError` if the
build directory was never injected), runs the subprocess with `check=True`
(raising `CalledProcessError` on a non-zero exit), and otherwise returns
whether `b"writing output"` occurs in the captured standard output. -/
def _build_with_sphinx (config : DocConfig) (run : SphinxRun) :
    Except RunError Bool :=
  match config.derived.build_dir with
  | none => .error (.keyError "build_dir")
  | some _ =>
    if run.returncode ≠ 0 then .error (.calledProcessError run.returncode)
    else .ok (strContains run.stdout "writing output")

/-- Effects of the `_deploy_docs(config)` loop: for each `.rst` file found
under the build directory (path relative to it), copy it to the same relative
path under the deploy directory. -/
def deployEvents (deploy_dir build_dir : String) (rstOutputs : List String) :
    List Event :=
  rstOutputs.map (fun rel => .copyFile (pathJoin build_dir rel) (pathJoin deploy_dir rel))

/-- One iteration of the `precommit_hook` loop body: inject the fresh
temporary directory as the build directory, scaffold sample sources when the
source directory does not exist, build (the returned changed flag is bound
and discarded, mirroring the bare call `_build_with_sphinx(config)`), then
deploy.  Returns the effect trace and the exception, if one was raised. -/
def processProject (w : World) (tmpdir : String) (config0 : DocConfig) :
    List Event × Option RunError :=
  let config : DocConfig :=
    { config0 with derived := { config0.derived with build_dir := some tmpdir } }
  let scaffold : List Event :=
    if w.docSrcExists config.doc_src then [] else _generate_sample_docs_source config
  let run := w.sphinx config
  match _build_with_sphinx config run with
  | .error e => (scaffold ++ [.runSphinx config.doc_src tmpdir], some e)
  | .ok _changed =>
    match config.derived.deploy_dir with
    | none => (scaffold ++ [.runSphinx config.doc_src tmpdir], some (.keyError "deploy_dir"))
    | some deploy_dir =>
      (scaffold ++ [.runSphinx config.doc_src tmpdir] ++
        deployEvents deploy_dir tmpdir run.rstOutputs, none)

/-- The `for config in configs` loop of `precommit_hook`, processing projects
in order with the i-th fresh temporary directory; an exception raised in one
iteration propagates, ending the loop (later projects are not reached). -/
def runPipelineAux (w : World) (i : Nat) :
    List DocConfig → List Event × Option RunError
  | [] => ([], none)
  | config :: rest =>
    match processProject w (w.tmpName i) config with
    | (evs, some e) => (evs, some e)
    | (evs, none) =>
      let r := runPipelineAux w (i + 1) rest
      (evs ++ r.1, r.2)

/-- `precommit_hook()`: discover the configurations, then run the per-project
loop; an exception during discovery means no project is processed. -/
def precommit_hook (w : World) (pyprojects : List (String × Toml)) :
    List Event × Option RunError :=
  match _load_configs pyprojects with
  | .error e => ([], some e)
  | .ok configs => runPipelineAux w 0 configs

/-! ### Filesystem model for deployment

`_deploy_docs` copies file contents, so for its round-trip property the
filesystem is modelled as an association list from path to content (a later
write shadows earlier entries, as `shutil.copy` overwrites) plus the list of
existing directories.  `shutil.copy` never creates a directory: when the
destination's parent directory does not exist it raises
`FileNotFoundError`, and this failure path is kept in the model. -/

/-- A filesystem: files as a path-to-content association list where the most
recent write is found first, and the list of existing directories. -/
structure FS where
  files : List (String × String)
  dirs : List String
deriving DecidableEq, Repr

/-- Read a file's content. -/
def fsRead (fs : FS) (path : String) : Option String :=
  fs.files.lookup path

/-- `shutil.copy(docfile, dest)` writing `content` to `dest`: the open of the
destination raises `FileNotFoundError` when the destination's parent
directory does not exist; otherwise the destination file is created or
overwritten.  No directory is ever created. -/
def shutil_copy (fs : FS) (dest content : String) : Except RunError FS :=
  if pathParent dest ∈ fs.dirs then
    .ok { fs with files := (dest, content) :: fs.files }
  else
    .error (.fileNotFoundError dest)

/-- `_deploy_docs(config)` acting on the filesystem: `rstFiles` lists each
`.rst` file found under the build directory as (path relative to the build
directory, content); each in turn is copied to the same relative path under
`config["derived"]["deploy_dir"]`.  A copy whose destination parent
directory is missing raises, ending the loop there (files already copied
remain copied in the real run; the exception propagates). -/
def _deploy_docs (deploy_dir : String) (rstFiles : List (String × String))
    (fs : FS) : Except RunError FS :=
  match rstFiles with
  | [] => .ok fs
  | (rel, content) :: rest =>
    match shutil_copy fs (pathJoin deploy_dir rel) content with
    | .error e => .error e
    | .ok fs2 => _deploy_docs deploy_dir rest fs2

/-! ### Trace observations used by the scaffold claim -/

/-- Is an event the builder invocation? -/
def isRunSphinx : Event → Bool
  | .runSphinx _ _ => true
  | _ => false

/-- The path written by a file-writing event, if any. -/
def writeFilePath : Event → Option String
  | .writeFile p => some p
  | _ => none

/-- The paths of the files written before the builder is invoked. -/
def filesWrittenBeforeBuild (evs : List Event) : List String :=
  (evs.takeWhile (fun e => !isRunSphinx e)).filterMap writeFilePath

/-- The spec's reading of a defaulted `doc_src` for C2: the fixed relative
path `docs/src` interpreted relative to the manifest's directory. -/
def specDocSrcRelativeToManifest (pyproject : String) : String :=
  pathJoin (pathParent pyproject) "docs/src"

/-! ### Concrete manifests, configurations and worlds used as test inputs -/

/-- A `[tool.doccer]` section with no keys set. -/
def emptySection : DoccerSection := { doc_src := none, doc_dest := none, py_modules := none }

/-- A manifest with a named project and an empty `[tool.doccer]` section. -/
def tomlBasic : Toml :=
  { project := some { name := some "demo", authors := none }
    tool_doccer := some emptySection }

/-- A manifest with a named project and no `[tool.doccer]` section. -/
def tomlNoSection : Toml :=
  { project := some { name := some "demo", authors := none }, tool_doccer := none }

/-- A manifest with the section and an explicit module list, whose project
table lacks `name`. -/
def tomlNoName : Toml :=
  { project := some { name := none, authors := none }
    tool_doccer := some { emptySection with py_modules := some ["m"] } }

/-- A manifest with the section (and an explicit module list) but no
top-level `project` table. -/
def tomlNoProject : Toml :=
  { project := none
    tool_doccer := some { emptySection with py_modules := some ["m"] } }

/-- The configuration `_load_config` produces for `tomlBasic` at the
repository root. -/
def demoConfig : DocConfig :=
  { pyproject_path := "pyproject.toml"
    pyproject_data := tomlBasic
    doc_src := "docs/src"
    doc_dest := "."
    derived :=
      { author := some { name := "unknown", email := "unknown" }
        build_dir := some "docs/build"
        deploy_dir := some "." }
    py_modules := ["demo"] }

/-- A configuration for a project under directory `a`. -/
def cfgA : DocConfig :=
  { demoConfig with pyproject_path := "a/pyproject.toml", doc_src := "a/docs/src" }

/-- A configuration for a project under directory `b`. -/
def cfgB : DocConfig :=
  { demoConfig with pyproject_path := "b/pyproject.toml", doc_src := "b/docs/src" }

/-- A world whose builder succeeds and reports writing output. -/
def worldChanged : World :=
  { docSrcExists := fun _ => true
    sphinx := fun _ => { returncode := 0, stdout := "writing output", rstOutputs := ["index.rst"] }
    tmpName := fun i => pathJoin "tmp" (toString i) }

/-- The same world except the builder's standard output is empty. -/
def worldUnchanged : World :=
  { docSrcExists := fun _ => true
    sphinx := fun _ => { returncode := 0, stdout := "", rstOutputs := ["index.rst"] }
    tmpName := fun i => pathJoin "tmp" (toString i) }

/-- A world where project `a`'s build exits non-zero and every other build
succeeds. -/
def worldFailA : World :=
  { docSrcExists := fun _ => true
    sphinx := fun c =>
      if c.doc_src == "a/docs/src" then { returncode := 1, stdout := "", rstOutputs := [] }
      else { returncode := 0, stdout := "writing output", rstOutputs := ["index.rst"] }
    tmpName := fun i => pathJoin "tmp" (toString i) }

/-- A world where no documentation source directory exists. -/
def worldScaffold : World :=
  { docSrcExists := fun _ => false
    sphinx := fun _ => { returncode := 0, stdout := "", rstOutputs := [] }
    tmpName := fun i => pathJoin "tmp" (toString i) }

/-- A builder run that succeeded and mentioned writing output. -/
def runChanged : SphinxRun :=
  { returncode := 0, stdout := "abc writing output here", rstOutputs := [] }

/-- An initial filesystem with one deployed file already present and the two
destination directories existing. -/
def fs0 : FS :=
  { files := [("out/index.rst", "old")], dirs := ["out", "out/docs"] }

/-- The filesystem `fs0` after deploying `index.rst` and `docs/sub.rst` to
`out`: both copies succeed (their parent directories exist), the existing
`out/index.rst` is shadowed by the new content, and no directory is added. -/
def fsDeployed : FS :=
  { files := [("out/docs/sub.rst", "sub content"), ("out/index.rst", "new content"),
      ("out/index.rst", "old")]
    dirs := ["out", "out/docs"] }

/-! ### Claims about configuration resolution -/

/-- C10: once the `[tool.doccer]` section is present, `_load_config` reads the
top-level `project` table unconditionally; a manifest without it makes
resolution raise a key-lookup error rather than return an absent result or a
configuration. -/
theorem c10_missing_project_table_raises (pyproject : String) (toml : Toml)
    (sec : DoccerSection) (hsec : toml.tool_doccer = some sec)
    (hproj : toml.project = none) :
    _load_config pyproject toml = .error (.keyError "project") := by
  simp [_load_config, hsec, hproj]

theorem c10_missing_project_table_raises_witness :
    tomlNoProject.tool_doccer = some { emptySection with py_modules := some ["m"] } ∧
    tomlNoProject.project = none ∧
    _load_config "pyproject.toml" tomlNoProject = .error (.keyError "project") :=
  ⟨rfl, rfl, c10_missing_project_table_raises "pyproject.toml" tomlNoProject _ rfl rfl⟩

/-- C1 (code bug): for every manifest that resolves to a configuration, the
derived record carries `author`, `build_dir` and `deploy_dir`, but
`project_name` — declared as a required `DerivedConfigData` field — is never
assigned by `_load_config`, so it is absent from every resolved
configuration. -/
theorem c1_derived_missing_project_name (pyproject : String) (toml : Toml)
    (config : DocConfig) (h : _load_config pyproject toml = .ok (some config)) :
    config.derived.author ≠ none ∧ config.derived.build_dir ≠ none ∧
      config.derived.deploy_dir ≠ none ∧ config.derived.project_name = none := by
  cases hts : toml.tool_doccer with
  | none => simp [_load_config, hts] at h
  | some sec =>
    cases htp : toml.project with
    | none => simp [_load_config, hts, htp] at h
    | some proj =>
      cases htn : proj.name with
      | none => simp [_load_config, hts, htp, htn] at h
      | some nm =>
        simp only [_load_config, hts, htp, htn] at h
        injection h with h1
        injection h1 with h2
        subst h2
        exact ⟨by simp, by simp, by simp, rfl⟩

theorem c1_derived_missing_project_name_witness :
    _load_config "pyproject.toml" tomlBasic = .ok (some demoConfig) ∧
    (demoConfig.derived.author ≠ none ∧ demoConfig.derived.build_dir ≠ none ∧
      demoConfig.derived.deploy_dir ≠ none ∧ demoConfig.derived.project_name = none) :=
  ⟨by decide, c1_derived_missing_project_name "pyproject.toml" tomlBasic demoConfig (by decide)⟩

/-- C2 counterexample: for a manifest in subdirectory `sub` with the section
present but no `doc_src`, the resolved `doc_src` is the literal `docs/src`,
not `sub/docs/src` as the claim's manifest-relative reading requires. -/
theorem c2_doc_src_counterexample :
    (_load_config "sub/pyproject.toml" tomlBasic).map (Option.map DocConfig.doc_src)
        = .ok (some "docs/src") ∧
      specDocSrcRelativeToManifest "sub/pyproject.toml" = "sub/docs/src" ∧
      ("docs/src" : String) ≠ "sub/docs/src" := by
  refine ⟨by decide, by decide, by decide⟩

/-- C2 (amended): for every manifest with the section present but no
`doc_src`, the resolved `doc_src` is the literal relative path `docs/src`,
independent of the manifest's directory. -/
theorem c2_default_doc_src (pyproject : String) (toml : Toml) (sec : DoccerSection)
    (config : DocConfig) (hsec : toml.tool_doccer = some sec)
    (hsrc : sec.doc_src = none)
    (h : _load_config pyproject toml = .ok (some config)) :
    config.doc_src = "docs/src" := by
  simp only [_load_config, hsec, hsrc, Option.getD_none] at h
  split at h
  · exact Except.noConfusion h
  · split at h
    · exact Except.noConfusion h
    · injection h with h1
      injection h1 with h2
      subst h2
      rfl

theorem c2_default_doc_src_witness :
    tomlBasic.tool_doccer = some emptySection ∧ emptySection.doc_src = none ∧
    _load_config "sub/pyproject.toml" tomlBasic =
      .ok (some { demoConfig with pyproject_path := "sub/pyproject.toml" }) ∧
    ({ demoConfig with pyproject_path := "sub/pyproject.toml" } : DocConfig).doc_src
      = "docs/src" :=
  ⟨rfl, rfl, by decide,
    c2_default_doc_src "sub/pyproject.toml" tomlBasic emptySection _ rfl rfl (by decide)⟩

/-- C5 counterexample: a manifest giving an explicit `py_modules` list whose
project table lacks `name` still raises the missing-field error — the claim
says the explicit list should be returned without requiring the name. -/
theorem c5_py_modules_counterexample :
    tomlNoName.tool_doccer = some { emptySection with py_modules := some ["m"] } ∧
    _load_config "pyproject.toml" tomlNoName = .error (.keyError "name") := by
  refine ⟨rfl, by decide⟩

/-- C5 (amended): with the section and project table present, the resolved
`py_modules` is the explicit list when one is given and `[project name]`
otherwise — but the default is evaluated unconditionally, so an absent
project name raises the missing-field error even when an explicit module
list is given. -/
theorem c5_py_modules_resolution (pyproject : String) (toml : Toml)
    (sec : DoccerSection) (proj : ProjectTable)
    (hsec : toml.tool_doccer = some sec) (hproj : toml.project = some proj) :
    (∀ nm, proj.name = some nm →
      (_load_config pyproject toml).map (Option.map DocConfig.py_modules)
        = .ok (some (sec.py_modules.getD [nm]))) ∧
    (proj.name = none → _load_config pyproject toml = .error (.keyError "name")) := by
  constructor
  · intro nm hnm
    simp [_load_config, hsec, hproj, hnm, Except.map]
  · intro hnm
    simp [_load_config, hsec, hproj, hnm]

theorem c5_py_modules_resolution_witness :
    (tomlNoName.tool_doccer = some { emptySection with py_modules := some ["m"] } ∧
      tomlNoName.project = some { name := none, authors := none } ∧
      _load_config "pyproject.toml" tomlNoName = .error (.keyError "name")) ∧
    (tomlBasic.tool_doccer = some emptySection ∧
      tomlBasic.project = some { name := some "demo", authors := none } ∧
      (_load_config "pyproject.toml" tomlBasic).map (Option.map DocConfig.py_modules)
        = .ok (some ["demo"])) :=
  ⟨⟨rfl, rfl,
      (c5_py_modules_resolution "pyproject.toml" tomlNoName _ _ rfl rfl).2 rfl⟩,
    ⟨rfl, rfl,
      (c5_py_modules_resolution "pyproject.toml" tomlBasic _ _ rfl rfl).1 "demo" rfl⟩⟩

/-! ### Opt-out projects are excluded from the whole pipeline (C6) -/

theorem load_config_no_section (pyproject : String) (toml : Toml)
    (h : toml.tool_doccer = none) :
    _load_config pyproject toml = .ok none := by
  simp [_load_config, h]

theorem load_configs_skips_no_section (pyproject : String) (toml : Toml)
    (h : toml.tool_doccer = none) :
    ∀ (xs ys : List (String × Toml)),
      _load_configs (xs ++ (pyproject, toml) :: ys) = _load_configs (xs ++ ys) := by
  intro xs
  induction xs with
  | nil =>
    intro ys
    simp only [List.nil_append, _load_configs, load_config_no_section pyproject toml h]
  | cons x rest ih =>
    intro ys
    cases x with
    | mk pp2 t2 =>
      simp only [List.cons_append, _load_configs, List.append_eq, ih ys]

/-- C6: a manifest whose parsed content lacks the `[tool.doccer]` section
resolves to no configuration, and the whole run behaves exactly as if that
manifest were not present: no scaffolding, build or deployment happens for
it at any position in the discovery list. -/
theorem c6_no_section_excluded (w : World) (pyproject : String) (toml : Toml)
    (h : toml.tool_doccer = none) (xs ys : List (String × Toml)) :
    _load_config pyproject toml = .ok none ∧
    precommit_hook w (xs ++ (pyproject, toml) :: ys) = precommit_hook w (xs ++ ys) := by
  refine ⟨load_config_no_section pyproject toml h, ?_⟩
  unfold precommit_hook
  rw [load_configs_skips_no_section pyproject toml h xs ys]

theorem c6_no_section_excluded_witness :
    tomlNoSection.tool_doccer = none ∧
    (_load_config "b/pyproject.toml" tomlNoSection = .ok none ∧
      precommit_hook worldChanged
          [("a/pyproject.toml", tomlBasic), ("b/pyproject.toml", tomlNoSection)] =
        precommit_hook worldChanged [("a/pyproject.toml", tomlBasic)]) :=
  ⟨rfl, by
    have := c6_no_section_excluded worldChanged "b/pyproject.toml" tomlNoSection rfl
      [("a/pyproject.toml", tomlBasic)] []
    simpa using this⟩

/-! ### Build classification (C7) -/

theorem isPrefixOf_eq_true_iff (n : List Char) :
    ∀ h : List Char, n.isPrefixOf h = true ↔ ∃ r, h = n ++ r := by
  induction n with
  | nil => intro h; simp
  | cons a as ih =>
    intro h
    cases h with
    | nil => simp [List.isPrefixOf]
    | cons b bs =>
      rw [List.isPrefixOf_cons₂]
      simp only [Bool.and_eq_true, beq_iff_eq, ih bs, List.cons_append, List.cons.injEq]
      constructor
      · rintro ⟨hab, r, hr⟩
        exact ⟨r, hab.symm, hr⟩
      · rintro ⟨r, hba, hr⟩
        exact ⟨hba.symm, r, hr⟩

theorem listContains_iff (n : List Char) :
    ∀ h : List Char, listContains n h = true ↔ ∃ l r, h = l ++ n ++ r := by
  intro h
  induction h with
  | nil =>
    simp only [listContains, List.isEmpty_iff]
    constructor
    · rintro hn
      exact ⟨[], [], by simp [hn]⟩
    · rintro ⟨l, r, hl⟩
      rcases l with _ | ⟨x, xs⟩
      · rcases n with _ | ⟨y, ys⟩
        · rfl
        · simp at hl
      · simp at hl
  | cons c cs ih =>
    simp only [listContains, Bool.or_eq_true, isPrefixOf_eq_true_iff, ih]
    constructor
    · rintro (⟨r, hr⟩ | ⟨l, r, hr⟩)
      · exact ⟨[], r, by simp [hr]⟩
      · exact ⟨c :: l, r, by simp [hr]⟩
    · rintro ⟨l, r, hr⟩
      cases l with
      | nil => exact .inl ⟨r, by simpa using hr⟩
      | cons x xs =>
        simp only [List.cons_append, List.cons.injEq] at hr
        exact .inr ⟨xs, r, hr.2⟩

/-- C7: for a completed builder run (zero exit status, build directory
injected), the build step returns `true` exactly when the captured standard
output contains the substring `writing output`, and `false` exactly when it
does not. -/
theorem c7_build_classification (config : DocConfig) (run : SphinxRun)
    (hb : config.derived.build_dir ≠ none) (hrc : run.returncode = 0) :
    (_build_with_sphinx config run = .ok true ↔
      ∃ l r, run.stdout.data = l ++ "writing output".data ++ r) ∧
    (_build_with_sphinx config run = .ok false ↔
      ¬ ∃ l r, run.stdout.data = l ++ "writing output".data ++ r) := by
  obtain ⟨bd, hbd⟩ := Option.ne_none_iff_exists'.mp hb
  have hform : _build_with_sphinx config run
      = .ok (strContains run.stdout "writing output") := by
    simp [_build_with_sphinx, hbd, hrc]
  rw [hform, strContains]
  constructor
  · simp only [Except.ok.injEq]
    exact listContains_iff _ _
  · simp only [Except.ok.injEq]
    rw [← listContains_iff "writing output".data run.stdout.data]
    cases hc : listContains "writing output".data run.stdout.data <;> simp

theorem c7_build_classification_witness :
    demoConfig.derived.build_dir ≠ none ∧ runChanged.returncode = 0 ∧
    _build_with_sphinx demoConfig runChanged = .ok true :=
  ⟨by decide, rfl,
    (c7_build_classification demoConfig runChanged (by decide) rfl).1.mpr
      ⟨"abc ".data, " here".data, by decide⟩⟩

/-! ### Deployment round-trip (C8) -/

theorem shutil_copy_ok_eq (fs : FS) (dest content : String) (fs2 : FS)
    (h : shutil_copy fs dest content = .ok fs2) :
    fs2 = { fs with files := (dest, content) :: fs.files } := by
  unfold shutil_copy at h
  split at h
  · injection h with h1
    exact h1.symm
  · exact Except.noConfusion h

theorem fsRead_shutil_copy_self (fs : FS) (dest content : String) (fs2 : FS)
    (h : shutil_copy fs dest content = .ok fs2) :
    fsRead fs2 dest = some content := by
  rw [shutil_copy_ok_eq fs dest content fs2 h]
  simp [fsRead, List.lookup]

theorem fsRead_shutil_copy_other (fs : FS) (dest content k : String) (fs2 : FS)
    (h : shutil_copy fs dest content = .ok fs2) (hk : k ≠ dest) :
    fsRead fs2 k = fsRead fs k := by
  rw [shutil_copy_ok_eq fs dest content fs2 h]
  have hb : (k == dest) = false := by simpa using hk
  simp [fsRead, List.lookup, hb]

theorem shutil_copy_dirs (fs : FS) (dest content : String) (fs2 : FS)
    (h : shutil_copy fs dest content = .ok fs2) :
    fs2.dirs = fs.dirs := by
  rw [shutil_copy_ok_eq fs dest content fs2 h]

theorem deploy_docs_missing_parent (deploy_dir rel content : String)
    (rest : List (String × String)) (fs : FS)
    (h : pathParent (pathJoin deploy_dir rel) ∉ fs.dirs) :
    _deploy_docs deploy_dir ((rel, content) :: rest) fs
      = .error (.fileNotFoundError (pathJoin deploy_dir rel)) := by
  simp [_deploy_docs, shutil_copy, h]

theorem deploy_docs_dirs (deploy_dir : String) :
    ∀ (files : List (String × String)) (fs fsFinal : FS),
      _deploy_docs deploy_dir files fs = .ok fsFinal → fsFinal.dirs = fs.dirs := by
  intro files
  induction files with
  | nil =>
    intro fs fsFinal hok
    injection hok with h1
    rw [← h1]
  | cons f rest ih =>
    intro fs fsFinal hok
    obtain ⟨rel, content⟩ := f
    cases hc : shutil_copy fs (pathJoin deploy_dir rel) content with
    | error e =>
      simp only [_deploy_docs, hc] at hok
      exact Except.noConfusion hok
    | ok fs2 =>
      simp only [_deploy_docs, hc] at hok
      rw [ih fs2 fsFinal hok, shutil_copy_dirs fs _ content fs2 hc]

theorem deploy_docs_read_unwritten (deploy_dir k : String) :
    ∀ (files : List (String × String)) (fs fsFinal : FS),
      _deploy_docs deploy_dir files fs = .ok fsFinal →
      k ∉ files.map (fun entry => pathJoin deploy_dir entry.1) →
      fsRead fsFinal k = fsRead fs k := by
  intro files
  induction files with
  | nil =>
    intro fs fsFinal hok _
    injection hok with h1
    rw [← h1]
  | cons f rest ih =>
    intro fs fsFinal hok hk
    obtain ⟨rel, content⟩ := f
    simp only [List.map_cons, List.mem_cons, not_or] at hk
    cases hc : shutil_copy fs (pathJoin deploy_dir rel) content with
    | error e =>
      simp only [_deploy_docs, hc] at hok
      exact Except.noConfusion hok
    | ok fs2 =>
      simp only [_deploy_docs, hc] at hok
      rw [ih fs2 fsFinal hok hk.2,
        fsRead_shutil_copy_other fs _ content k fs2 hc hk.1]

theorem deploy_docs_read_mem (deploy_dir : String) :
    ∀ (files : List (String × String)) (fs fsFinal : FS),
      (files.map (fun entry => pathJoin deploy_dir entry.1)).Nodup →
      _deploy_docs deploy_dir files fs = .ok fsFinal →
      ∀ rel content, (rel, content) ∈ files →
        fsRead fsFinal (pathJoin deploy_dir rel) = some content := by
  intro files
  induction files with
  | nil => intro fs fsFinal _ _ rel content hmem; simp at hmem
  | cons f rest ih =>
    intro fs fsFinal hnodup hok rel content hmem
    obtain ⟨r0, c0⟩ := f
    simp only [List.map_cons, List.nodup_cons] at hnodup
    cases hc : shutil_copy fs (pathJoin deploy_dir r0) c0 with
    | error e =>
      simp only [_deploy_docs, hc] at hok
      exact Except.noConfusion hok
    | ok fs2 =>
      simp only [_deploy_docs, hc] at hok
      rcases List.mem_cons.mp hmem with heq | hmem2
      · have h1 : r0 = rel := congrArg Prod.fst heq.symm
        have h2 : c0 = content := congrArg Prod.snd heq.symm
        subst h1; subst h2
        rw [deploy_docs_read_unwritten deploy_dir (pathJoin deploy_dir r0) rest fs2
            fsFinal hok hnodup.1,
          fsRead_shutil_copy_self fs _ c0 fs2 hc]
      · exact ih fs2 fsFinal hnodup.2 hok rel content hmem2

/-- C8: given the `.rst` files found under the build directory (as paths
relative to it, with their contents, all destinations distinct), a
deployment that completed — each copy raises `FileNotFoundError` when its
destination's parent directory is missing, since `shutil.copy` creates no
directory — leaves every one of those files at the corresponding relative
path under the deploy directory with identical content, overwriting whatever
was there (the result holds for every prior filesystem), and the set of
directories is unchanged. -/
theorem c8_deploy_round_trip (deploy_dir : String)
    (rstFiles : List (String × String)) (fs fsFinal : FS)
    (hnodup : (rstFiles.map (fun entry => pathJoin deploy_dir entry.1)).Nodup)
    (hok : _deploy_docs deploy_dir rstFiles fs = .ok fsFinal) :
    (∀ rel content, (rel, content) ∈ rstFiles →
      fsRead fsFinal (pathJoin deploy_dir rel) = some content) ∧
    fsFinal.dirs = fs.dirs :=
  ⟨deploy_docs_read_mem deploy_dir rstFiles fs fsFinal hnodup hok,
    deploy_docs_dirs deploy_dir rstFiles fs fsFinal hok⟩

theorem c8_deploy_round_trip_witness :
    ([("index.rst", "new content"), ("docs/sub.rst", "sub content")].map
        (fun entry => pathJoin "out" entry.1)).Nodup ∧
    _deploy_docs "out" [("index.rst", "new content"), ("docs/sub.rst", "sub content")] fs0
      = .ok fsDeployed ∧
    fsRead fsDeployed (pathJoin "out" "index.rst") = some "new content" ∧
    fsRead fsDeployed (pathJoin "out" "docs/sub.rst") = some "sub content" ∧
    fsDeployed.dirs = fs0.dirs :=
  ⟨by decide, by decide,
    (c8_deploy_round_trip "out" [("index.rst", "new content"), ("docs/sub.rst", "sub content")]
        fs0 fsDeployed (by decide) (by decide)).1
      "index.rst" "new content" (by decide),
    (c8_deploy_round_trip "out" [("index.rst", "new content"), ("docs/sub.rst", "sub content")]
        fs0 fsDeployed (by decide) (by decide)).1
      "docs/sub.rst" "sub content" (by decide),
    (c8_deploy_round_trip "out" [("index.rst", "new content"), ("docs/sub.rst", "sub content")]
        fs0 fsDeployed (by decide) (by decide)).2⟩

/-! ### Scaffolding writes exactly four files before the build (C9) -/

/-- C9: when the configured source directory does not exist, the pipeline
iteration writes exactly four files — the root document, the example subpage
in the nested `docs` subdirectory, the build configuration and the makefile —
before the builder is invoked. -/
theorem c9_scaffold_four_files (w : World) (tmpdir : String) (config : DocConfig)
    (h : w.docSrcExists config.doc_src = false) :
    filesWrittenBeforeBuild (processProject w tmpdir config).1 =
      [pathJoin config.doc_src "README.rst",
        pathJoin (pathJoin config.doc_src "docs") "subpage.rst",
        pathJoin config.doc_src "conf.py",
        pathJoin config.doc_src "Makefile"] := by
  have h1 : templateDestName "README.rst.jinja2" = "README.rst" := by decide
  have h2 : templateDestName "subpage.rst.jinja2" = "subpage.rst" := by decide
  have h3 : templateDestName "conf.py.jinja2" = "conf.py" := by decide
  have h4 : templateDestName "Makefile.jinja2" = "Makefile" := by decide
  simp only [processProject, h, Bool.false_eq_true, if_false]
  split
  · simp [filesWrittenBeforeBuild, _generate_sample_docs_source, _render_template,
      isRunSphinx, writeFilePath, List.takeWhile, h1, h2, h3, h4]
  · split
    · simp [filesWrittenBeforeBuild, _generate_sample_docs_source, _render_template,
        isRunSphinx, writeFilePath, List.takeWhile, h1, h2, h3, h4]
    · simp [filesWrittenBeforeBuild, _generate_sample_docs_source, _render_template,
        isRunSphinx, writeFilePath, List.takeWhile, h1, h2, h3, h4]

theorem c9_scaffold_four_files_witness :
    worldScaffold.docSrcExists demoConfig.doc_src = false ∧
    filesWrittenBeforeBuild (processProject worldScaffold "tmp/0" demoConfig).1 =
      ["docs/src/README.rst", "docs/src/docs/subpage.rst",
        "docs/src/conf.py", "docs/src/Makefile"] :=
  ⟨rfl, by
    rw [c9_scaffold_four_files worldScaffold "tmp/0" demoConfig rfl]
    decide⟩

/-! ### A build failure aborts the whole run (C4) -/

/-- C4 counterexample: over two discovered configurations where the first
project's build exits non-zero and the second project's build would succeed,
the run ends with the first project's error and the second project's build is
never invoked — the remaining projects are not processed. -/
theorem c4_counterexample :
    (runPipelineAux worldFailA 0 [cfgA, cfgB]).2 = some (.calledProcessError 1) ∧
    (worldFailA.sphinx cfgB).returncode = 0 ∧
    Event.runSphinx cfgB.doc_src (worldFailA.tmpName 1) ∉
      (runPipelineAux worldFailA 0 [cfgA, cfgB]).1 := by
  refine ⟨by decide, by decide, by decide⟩

/-- C4 (amended): a build failure (or any exception) in one project ends the
whole run at that project: the loop propagates the exception, so the
remaining configurations in the list are not processed and contribute no
events. -/
theorem c4_build_failure_aborts_run (w : World) (i : Nat) (config : DocConfig)
    (rest : List DocConfig) (evs : List Event) (e : RunError)
    (h : processProject w (w.tmpName i) config = (evs, some e)) :
    runPipelineAux w i (config :: rest) = (evs, some e) := by
  simp [runPipelineAux, h]

theorem c4_build_failure_aborts_run_witness :
    processProject worldFailA (worldFailA.tmpName 0) cfgA
      = ([.runSphinx "a/docs/src" "tmp/0"], some (.calledProcessError 1)) ∧
    runPipelineAux worldFailA 0 [cfgA, cfgB]
      = ([.runSphinx "a/docs/src" "tmp/0"], some (.calledProcessError 1)) :=
  ⟨by decide,
    c4_build_failure_aborts_run worldFailA 0 cfgA [cfgB] _ _ (by decide)⟩

/-! ### The driver discards the build-changed flag (C3) -/

theorem processProject_ignores_stdout (w1 w2 : World)
    (hd : w1.docSrcExists = w2.docSrcExists)
    (hrc : ∀ c, (w1.sphinx c).returncode = (w2.sphinx c).returncode)
    (hro : ∀ c, (w1.sphinx c).rstOutputs = (w2.sphinx c).rstOutputs)
    (tmpdir : String) (config0 : DocConfig) :
    processProject w1 tmpdir config0 = processProject w2 tmpdir config0 := by
  by_cases h0 :
      (w2.sphinx { config0 with
        derived := { config0.derived with build_dir := some tmpdir } }).returncode = 0
  · simp [processProject, _build_with_sphinx, hd, hrc, hro, h0]
  · simp [processProject, _build_with_sphinx, hd, hrc, hro, h0]

theorem runPipelineAux_ignores_stdout (w1 w2 : World)
    (hd : w1.docSrcExists = w2.docSrcExists)
    (ht : w1.tmpName = w2.tmpName)
    (hrc : ∀ c, (w1.sphinx c).returncode = (w2.sphinx c).returncode)
    (hro : ∀ c, (w1.sphinx c).rstOutputs = (w2.sphinx c).rstOutputs) :
    ∀ (configs : List DocConfig) (i : Nat),
      runPipelineAux w1 i configs = runPipelineAux w2 i configs := by
  intro configs
  induction configs with
  | nil => intro i; rfl
  | cons c rest ih =>
    intro i
    simp only [runPipelineAux, ht,
      processProject_ignores_stdout w1 w2 hd hrc hro (w2.tmpName i) c, ih (i + 1)]

/-- C3 (code bug): the run's outcome — its whole effect trace and final
error — is unchanged under any change to the builder's standard output that
keeps exit codes and produced files fixed, because `precommit_hook` calls
`_build_with_sphinx` as a bare statement and discards the returned
build-changed flag; nothing downstream ever consumes it. -/
theorem c3_changed_flag_discarded (w1 w2 : World)
    (pyprojects : List (String × Toml))
    (hd : w1.docSrcExists = w2.docSrcExists)
    (ht : w1.tmpName = w2.tmpName)
    (hrc : ∀ c, (w1.sphinx c).returncode = (w2.sphinx c).returncode)
    (hro : ∀ c, (w1.sphinx c).rstOutputs = (w2.sphinx c).rstOutputs) :
    precommit_hook w1 pyprojects = precommit_hook w2 pyprojects := by
  unfold precommit_hook
  cases hl : _load_configs pyprojects with
  | error e => rfl
  | ok configs => exact runPipelineAux_ignores_stdout w1 w2 hd ht hrc hro configs 0

theorem c3_changed_flag_discarded_witness :
    worldChanged.docSrcExists = worldUnchanged.docSrcExists ∧
    worldChanged.tmpName = worldUnchanged.tmpName ∧
    (∀ c, (worldChanged.sphinx c).returncode = (worldUnchanged.sphinx c).returncode) ∧
    (∀ c, (worldChanged.sphinx c).rstOutputs = (worldUnchanged.sphinx c).rstOutputs) ∧
    (worldChanged.sphinx demoConfig).stdout ≠ (worldUnchanged.sphinx demoConfig).stdout ∧
    precommit_hook worldChanged [("pyproject.toml", tomlBasic)]
      = precommit_hook worldUnchanged [("pyproject.toml", tomlBasic)] :=
  ⟨rfl, rfl, fun _ => rfl, fun _ => rfl, by decide,
    c3_changed_flag_discarded worldChanged worldUnchanged [("pyproject.toml", tomlBasic)]
      rfl rfl (fun _ => rfl) (fun _ => rfl)⟩

end Doccer
